import Mathlib

/-!
Verification of the AdvancedJSObjects reactive-property library.

Shallow embedding of the observable-property core:
`ReadOnlyProperty` (listener set + notify), `Property` (mutable, bind/unbind),
`ReadOnlyPropertyWrapper` (cached read-only view), `NumberProperty`
(numeric mutators) and `Binding` (derived value recomputed on source change).

Modelling conventions:
* JavaScript primitive values are the inductive `JSValue`; IEEE-754 doubles are
  modelled as exact rationals, with `NaN` as a separate constructor so that
  strict equality (`===`) can be modelled faithfully (`NaN !== NaN`).
  Infinities and numeric string coercion are outside the model; the arithmetic
  helpers return `nan` on operand shapes that no proved theorem exercises.
* Listener callbacks are identified by natural-number ids.  A run of an
  operation returns the state after it, the list of listener invocations it
  performed, and an optional error; a raised assertion leaves the mutations
  performed before the raise in place, mirroring JavaScript exception
  semantics.
* The `assert` calls of the source are mapped to the spec's error taxonomy:
  type/zero/empty-argument checks to `invalidArgument`, the set-while-bound
  check to `illegalState`, and the defensive `oldValue !== undefined` check
  inside `notify` to `assertionFailed`.
-/

set_option autoImplicit false

/-- JavaScript primitive values as stored in properties.  Doubles are exact
rationals; `nan` is separate because `NaN === NaN` is false. -/
inductive JSValue where
  | null
  | undef
  | bool (b : Bool)
  | num (q : ℚ)
  | nan
  | str (s : String)
  deriving DecidableEq

/-- JavaScript strict equality `===` on the modelled values.  `NaN` compares
unequal to everything, itself included; `0` and `-0` coincide in `ℚ`. -/
def jsEq : JSValue → JSValue → Bool
  | JSValue.nan, _ => false
  | _, JSValue.nan => false
  | a, b => decide (a = b)

/-- JavaScript truthiness, as used by the `assert(Boolean(x))` checks. -/
def jsTruthy : JSValue → Bool
  | JSValue.null => false
  | JSValue.undef => false
  | JSValue.bool b => b
  | JSValue.num q => decide (q ≠ 0)
  | JSValue.nan => false
  | JSValue.str s => decide (s ≠ "")

/-- The `NumberProperty` module's `isNumber` check:
`num !== undefined && num !== null && Type.of(num) === Type.NUMBER`.
`typeof NaN` is `"number"`, so `nan` passes. -/
def isNumber : JSValue → Bool
  | JSValue.num _ => true
  | JSValue.nan => true
  | _ => false

/-- Addition on modelled values.  Only number/number (and `NaN`) operand shapes are
exercised by the development; other shapes are coarsely mapped to `nan`. -/
def jsAdd : JSValue → JSValue → JSValue
  | JSValue.num a, JSValue.num b => JSValue.num (a + b)
  | _, _ => JSValue.nan

/-- Subtraction on modelled values, see `jsAdd`. -/
def jsSub : JSValue → JSValue → JSValue
  | JSValue.num a, JSValue.num b => JSValue.num (a - b)
  | _, _ => JSValue.nan

/-- Multiplication on modelled values, see `jsAdd`. -/
def jsMul : JSValue → JSValue → JSValue
  | JSValue.num a, JSValue.num b => JSValue.num (a * b)
  | _, _ => JSValue.nan

/-- Division on modelled values.  A zero divisor is unreachable through
`NumberProperty.divide`, which rejects it first; the model maps it to `nan`. -/
def jsDiv : JSValue → JSValue → JSValue
  | JSValue.num a, JSValue.num b => if b = 0 then JSValue.nan else JSValue.num (a / b)
  | _, _ => JSValue.nan

/-- The spec's error taxonomy plus the defensive assertion inside `notify`. -/
inductive Err where
  | invalidArgument
  | illegalState
  | assertionFailed
  deriving DecidableEq

/-- One listener invocation: `listener(property, oldValue, newValue)`.
The property argument is implicit in which list the record appears in. -/
structure Notif where
  listener : Nat
  oldValue : JSValue
  newValue : JSValue
  deriving DecidableEq

/-- The loop body of `ReadOnlyProperty`'s protected `notify`: invoke every
registered listener, in insertion order, with the old and the current value
(`newValue = instance.get()`). -/
def ReadOnlyProperty.notify (listeners : List Nat) (oldValue currentValue : JSValue) :
    List Notif :=
  listeners.map fun l => { listener := l, oldValue := oldValue, newValue := currentValue }

/-- Result of running a mutator: state after the run, invocations of the
owner's listeners, invocations of the cached read-only view's listeners,
whether the owner's `notify` loop ran, and the error raised, if any.
Mutations performed before a raise persist, as with a thrown `assert`. -/
structure MRes (α : Type) where
  st : α
  own : List Notif
  view : List Notif
  fired : Bool
  err : Option Err
  deriving DecidableEq

/-- The result of a mutator aborted by a precondition assertion before any
mutation: state unchanged, nobody notified. -/
def MRes.abort {α : Type} (st : α) (e : Err) : MRes α :=
  { st := st, own := [], view := [], fired := false, err := some e }

/-- State of a `Property` (file `Property`): the stored value, the externally
registered listeners (ids, insertion order) and whether the property is bound
to a source (`observing !== null`). -/
structure Property where
  value : JSValue
  listeners : List Nat
  observing : Bool
  deriving DecidableEq

/-- Constructor `Property.new(value)`: an omitted/`undefined` argument becomes `null`. -/
def Property.mkNew (value : JSValue) : Property :=
  { value := if value = JSValue.undef then JSValue.null else value
    listeners := []
    observing := false }

/-- Method `addListener`: JS `Set.add`, a no-op when already present. -/
def Property.addListener (p : Property) (l : Nat) : Property :=
  if l ∈ p.listeners then p else { p with listeners := p.listeners ++ [l] }

/-- The local `set` closure of `Property`'s constructor (the internal setter,
used by the public `set` and by bind-forwarding):
`assert(newValue !== undefined); if (value === newValue) return;`
then store and `notify(oldValue)` (which itself asserts
`oldValue !== undefined`). -/
def Property.setInternal (p : Property) (newValue : JSValue) : MRes Property :=
  if newValue = JSValue.undef then
    { st := p, own := [], view := [], fired := false, err := some Err.invalidArgument }
  else if jsEq p.value newValue then
    { st := p, own := [], view := [], fired := false, err := none }
  else
    let p' : Property := { p with value := newValue }
    if p.value = JSValue.undef then
      { st := p', own := [], view := [], fired := false, err := some Err.assertionFailed }
    else
      { st := p', own := ReadOnlyProperty.notify p'.listeners p.value p'.value,
        view := [], fired := true, err := none }

/-- The public `Property.set`: `assert(!instance.isBound()); set(newValue)`. -/
def Property.set (p : Property) (newValue : JSValue) : MRes Property :=
  if p.observing then
    { st := p, own := [], view := [], fired := false, err := some Err.illegalState }
  else
    p.setInternal newValue

/-- Accessor `Property.isBound()`. -/
def Property.isBound (p : Property) : Bool :=
  p.observing


/-- State of a `ReadOnlyPropertyWrapper` (file `Structure.js`): the underlying
`Property` plus whether the cached read-only view (`readOnly`) has been
created and the listeners registered on that view. -/
structure ReadOnlyPropertyWrapper extends Property where
  viewCreated : Bool
  viewListeners : List Nat
  deriving DecidableEq

/-- The `ReadOnlyPropertyWrapper` protected constructor: an omitted/`undefined`
value becomes `null`, then the `Property` constructor runs; no view exists
yet. -/
def ReadOnlyPropertyWrapper.mkNew (value : JSValue) : ReadOnlyPropertyWrapper :=
  let value := if value = JSValue.undef then JSValue.null else value
  { toProperty := Property.mkNew value, viewCreated := false, viewListeners := [] }

/-- Method `instance.readOnly()`: creates the view (and captures its notify handle)
on first call; subsequent calls reuse the cached view. -/
def ReadOnlyPropertyWrapper.readOnly (w : ReadOnlyPropertyWrapper) :
    ReadOnlyPropertyWrapper :=
  if w.viewCreated then w else { w with viewCreated := true }

/-- Accessor `get()` of the cached read-only view: its accessor delegates to the
owner's `get()`. -/
def ReadOnlyPropertyWrapper.viewGet (w : ReadOnlyPropertyWrapper) : JSValue :=
  w.value

/-- Method `addListener` on the cached read-only view. -/
def ReadOnlyPropertyWrapper.addViewListener (w : ReadOnlyPropertyWrapper) (l : Nat) :
    ReadOnlyPropertyWrapper :=
  if l ∈ w.viewListeners then w else { w with viewListeners := w.viewListeners ++ [l] }

/-- The internal setter, as reached by bind-forwarding: the `Property`-level
local `set` closure.  It bypasses both the bound-state guard and the wrapper's
`set` override, so it never notifies the view's listeners. -/
def ReadOnlyPropertyWrapper.setInternal (w : ReadOnlyPropertyWrapper)
    (newValue : JSValue) : MRes ReadOnlyPropertyWrapper :=
  let r := w.toProperty.setInternal newValue
  { st := { w with toProperty := r.st }, own := r.own, view := [],
    fired := r.fired, err := r.err }

/-- The wrapper's overridden `set`:
`oldValue = instance.get(); set(newValue); if (readOnly !== null) notify(oldValue)`
where `set` is the public `Property.set` and `notify` is the captured notify
handle of the view (whose `get` returns the owner's current value).  The view
notification is unconditional once the base `set` returns normally, even when
that `set` was an equal-value no-op. -/
def ReadOnlyPropertyWrapper.set (w : ReadOnlyPropertyWrapper)
    (newValue : JSValue) : MRes ReadOnlyPropertyWrapper :=
  let oldValue := w.value
  let r := w.toProperty.set newValue
  let w' : ReadOnlyPropertyWrapper := { w with toProperty := r.st }
  match r.err with
  | some e =>
      { st := w', own := r.own, view := [], fired := r.fired, err := some e }
  | none =>
      if w.viewCreated then
        if oldValue = JSValue.undef then
          { st := w', own := r.own, view := [], fired := r.fired,
            err := some Err.assertionFailed }
        else
          { st := w', own := r.own,
            view := ReadOnlyProperty.notify w.viewListeners oldValue w'.value,
            fired := r.fired, err := none }
      else
        { st := w', own := r.own, view := [], fired := r.fired, err := none }

namespace NumberProperty

/-- Constructor `NumberProperty.new(value)`: an omitted/`undefined` argument defaults to
`0`; the value must then pass `isNumber`.  A `NumberProperty` adds no state
beyond its `ReadOnlyPropertyWrapper`. -/
def mkNew (value : JSValue) : Except Err ReadOnlyPropertyWrapper :=
  let value := if value = JSValue.undef then JSValue.num 0 else value
  if isNumber value then Except.ok (ReadOnlyPropertyWrapper.mkNew value)
  else Except.error Err.invalidArgument

/-- The `NumberProperty` overridden `set`: `assert(isNumber(newValue))`, then
the wrapper's `set`. -/
def set (w : ReadOnlyPropertyWrapper) (newValue : JSValue) :
    MRes ReadOnlyPropertyWrapper :=
  if isNumber newValue then w.set newValue
  else { st := w, own := [], view := [], fired := false, err := some Err.invalidArgument }

/-- Method `add(summand)`: `assert(isNumber(summand)); instance.set(get() + summand)`. -/
def add (w : ReadOnlyPropertyWrapper) (summand : JSValue) :
    MRes ReadOnlyPropertyWrapper :=
  if isNumber summand then set w (jsAdd w.value summand)
  else { st := w, own := [], view := [], fired := false, err := some Err.invalidArgument }

/-- Method `subtract(subtrahend)`. -/
def subtract (w : ReadOnlyPropertyWrapper) (subtrahend : JSValue) :
    MRes ReadOnlyPropertyWrapper :=
  if isNumber subtrahend then set w (jsSub w.value subtrahend)
  else { st := w, own := [], view := [], fired := false, err := some Err.invalidArgument }

/-- Method `multiply(factor)`. -/
def multiply (w : ReadOnlyPropertyWrapper) (factor : JSValue) :
    MRes ReadOnlyPropertyWrapper :=
  if isNumber factor then set w (jsMul w.value factor)
  else { st := w, own := [], view := [], fired := false, err := some Err.invalidArgument }

/-- Method `divide(divisor)`: `assert(isNumber(divisor)); assert(divisor !== 0);`
then `instance.set(get() / divisor)`. -/
def divide (w : ReadOnlyPropertyWrapper) (divisor : JSValue) :
    MRes ReadOnlyPropertyWrapper :=
  if isNumber divisor then
    if jsEq divisor (JSValue.num 0) then
      { st := w, own := [], view := [], fired := false, err := some Err.invalidArgument }
    else
      set w (jsDiv w.value divisor)
  else { st := w, own := [], view := [], fired := false, err := some Err.invalidArgument }

/-- Method `increment()`: sugar for `add(1)`. -/
def increment (w : ReadOnlyPropertyWrapper) : MRes ReadOnlyPropertyWrapper :=
  add w (JSValue.num 1)

/-- Method `decrement()`: sugar for `subtract(1)`. -/
def decrement (w : ReadOnlyPropertyWrapper) : MRes ReadOnlyPropertyWrapper :=
  subtract w (JSValue.num 1)

end NumberProperty

/-- A two-property configuration for the bind claims: a plain `Property`
acting as the bound source (itself unbound) and a dependent
wrapper-classed property (covering `Property`, `ReadOnlyPropertyWrapper` and
`NumberProperty` instances).  `dep.observing = true` means the dependent's
`observedCallback` is registered in `src`'s listener set; the model places
`src`'s external listeners before that callback (i.e. they were registered
before `bind`), which is the only iteration order the claims exercise. -/
structure World where
  src : Property
  dep : ReadOnlyPropertyWrapper
  deriving DecidableEq

/-- Result of a `World` operation: invocations of `src`'s external listeners,
of `dep`'s own listeners, and of `dep`'s view's listeners. -/
structure WRes where
  w : World
  srcN : List Notif
  depN : List Notif
  viewN : List Notif
  err : Option Err
  deriving DecidableEq

/-- Operation `src.set(x)` in the world.  `src`'s public `set` runs; if its notify loop
ran and the dependent's `observedCallback` is registered, that callback runs
`set(newValue)` — the dependent's `Property`-level internal setter — with the
source's new value. -/
def World.srcSet (w : World) (x : JSValue) : WRes :=
  let r := w.src.set x
  let w1 : World := { w with src := r.st }
  if r.fired && w.dep.observing then
    let d := w.dep.setInternal x
    { w := { w1 with dep := d.st }, srcN := r.own, depN := d.own,
      viewN := d.view, err := d.err }
  else
    { w := w1, srcN := r.own, depN := [], viewN := [], err := r.err }

/-- Operation `dep.bind(src)`: the source is a valid `ReadOnlyProperty` instance by
construction of the model.  `if (binding === observing) return;` — a no-op
when already bound to this source.  Otherwise unbind (nothing to do: the model
has a single candidate source), register `observedCallback` on the source, and
synchronize via the internal setter: `set(observing.get())`. -/
def World.bind (w : World) : WRes :=
  if w.dep.observing then
    { w := w, srcN := [], depN := [], viewN := [], err := none }
  else
    let d0 : ReadOnlyPropertyWrapper := { w.dep with observing := true }
    let d := d0.setInternal w.src.value
    { w := { w with dep := d.st }, srcN := [], depN := d.own,
      viewN := d.view, err := d.err }

/-- Operation `dep.unbind()`: `if (!instance.isBound()) return;` then remove
`observedCallback` from the source's listener set and clear the binding
state. -/
def World.unbind (w : World) : World :=
  if w.dep.observing then { w with dep := { w.dep with observing := false } } else w

/-- The argument passed as a `Binding`'s compute function: either an actual
function (modelled with an explicit state `σ` threaded through each
invocation, so that invocation counts are observable) or a non-function
value. -/
inductive ComputeArg (σ : Type) where
  | fn (f : σ → JSValue × σ)
  | notFn (v : JSValue)

/-- Deduplication `new Set(observables)`: duplicates collapsed, first occurrence kept,
insertion order preserved. -/
def dedupFirst : List Nat → List Nat
  | [] => []
  | x :: xs => x :: dedupFirst (xs.filter fun y => y ≠ x)
termination_by l => l.length
decreasing_by
  simp only [List.length_cons]
  exact Nat.lt_succ_of_le (List.length_filter_le _ _)

/-- State of a `Binding`: the cached value and the binding's own listeners. -/
structure BindingState where
  value : JSValue
  listeners : List Nat
  deriving DecidableEq

/-- Constructor `Binding.new(compute, ...observables)`:
`assert(Boolean(compute)); assert(Type.of(compute) === Type.FUNCTION);`
deduplicate the observables into a set, `assert(observables.size > 0)`, then
compute the initial value eagerly (`let value = compute();`) and attach a
single shared listener to every member of the set (each member is a valid
`ReadOnlyProperty` by the model's typing).  Returns the binding state, the
compute function's state after construction, and the list of sources the
listener was attached to. -/
def Binding.mkNew {σ : Type} (compute : ComputeArg σ) (observables : List Nat)
    (s : σ) : Except Err (BindingState × σ × List Nat) :=
  match compute with
  | ComputeArg.notFn _ =>
      -- Fails at `assert(Boolean(compute))` when falsy, otherwise at the
      -- `Type.of(compute) === Type.FUNCTION` check; both are InvalidArgument.
      Except.error Err.invalidArgument
  | ComputeArg.fn f =>
      let obs := dedupFirst observables
      if obs.length = 0 then Except.error Err.invalidArgument
      else
        let (v, s') := f s
        Except.ok ({ value := v, listeners := [] }, s', obs)

/-- Accessor `Binding.get()`: returns the cached value without recomputing. -/
def Binding.get (b : BindingState) : JSValue :=
  b.value

/-- The internal listener a `Binding` registers on each source:
`oldValue = value; value = compute(); if (oldValue !== value) notify(oldValue)`.
`notify` asserts `oldValue !== undefined` before iterating the listeners.
Returns the binding state, the invocations of the binding's own listeners,
the compute function's state after the call, and the error, if any. -/
def Binding.listenerStep {σ : Type} (f : σ → JSValue × σ) (b : BindingState)
    (s : σ) : BindingState × List Notif × σ × Option Err :=
  let (v, s') := f s
  let b' : BindingState := { b with value := v }
  if jsEq b.value v then (b', [], s', none)
  else if b.value = JSValue.undef then (b', [], s', some Err.assertionFailed)
  else (b', ReadOnlyProperty.notify b.listeners b.value v, s', none)

/-! ## Helper lemmas -/

theorem jsEq_eq_true_iff (a b : JSValue) :
    jsEq a b = true ↔ a = b ∧ a ≠ JSValue.nan := by
  cases a <;> cases b <;> simp [jsEq]

theorem jsEq_self (a : JSValue) (h : a ≠ JSValue.nan) : jsEq a a = true := by
  rw [jsEq_eq_true_iff]; exact ⟨rfl, h⟩

theorem mem_dedupFirst (a : Nat) : ∀ l : List Nat, a ∈ dedupFirst l ↔ a ∈ l := by
  intro l
  induction l using dedupFirst.induct with
  | case1 => simp [dedupFirst]
  | case2 x xs ih =>
      rw [dedupFirst]
      simp only [List.mem_cons, ih]
      by_cases hax : a = x
      · simp [hax]
      · simp [List.mem_filter, hax]

theorem nodup_dedupFirst : ∀ l : List Nat, (dedupFirst l).Nodup := by
  intro l
  induction l using dedupFirst.induct with
  | case1 => simp [dedupFirst]
  | case2 x xs ih =>
      rw [dedupFirst]
      refine List.nodup_cons.mpr ⟨?_, ih⟩
      intro hmem
      have := (mem_dedupFirst x _).mp hmem
      simp [List.mem_filter] at this

theorem dedupFirst_eq_nil_iff (l : List Nat) : dedupFirst l = [] ↔ l = [] := by
  cases l <;> simp [dedupFirst]

theorem isNumber_ne_undef {v : JSValue} (h : isNumber v = true) :
    v ≠ JSValue.undef := by
  cases v <;> simp_all [isNumber]

theorem isNumber_jsDiv (a b : JSValue) : isNumber (jsDiv a b) = true := by
  cases a <;> cases b <;>
    first
      | rfl
      | (simp only [jsDiv]; split <;> rfl)

theorem isNumber_jsAdd (a b : JSValue) : isNumber (jsAdd a b) = true := by
  cases a <;> cases b <;> rfl

theorem isNumber_jsSub (a b : JSValue) : isNumber (jsSub a b) = true := by
  cases a <;> cases b <;> rfl

theorem isNumber_jsMul (a b : JSValue) : isNumber (jsMul a b) = true := by
  cases a <;> cases b <;> rfl

/-- The wrapper's overridden `set` can only fail on the bound-state guard or
on the defensive notify assertion; a defined (non-`undefined`) new value never
produces InvalidArgument. -/
theorem wrapper_set_err_ne_invalidArgument (w : ReadOnlyPropertyWrapper)
    (v : JSValue) (hv : v ≠ JSValue.undef) :
    (w.set v).err ≠ some Err.invalidArgument := by
  simp only [ReadOnlyPropertyWrapper.set, Property.set, Property.setInternal]
  split_ifs <;> simp_all

/-! ## Claim theorems -/

/-- C4: whenever a source of a Binding fires a change notification, the
binding's internal listener synchronously recomputes `newValue = computeFn()`;
if `newValue !== cachedValue` it caches `newValue` and notifies the binding's
own listeners with the old cached value (each listener receiving the old and
the new cached value); otherwise the cached value is unchanged and no listener
of the binding is notified. -/
theorem binding_listener_recompute_and_suppress {σ : Type}
    (f : σ → JSValue × σ) (b : BindingState) (s : σ) :
    (Binding.listenerStep f b s).1.value = (f s).1
    ∧ (Binding.listenerStep f b s).2.2.1 = (f s).2
    ∧ (jsEq b.value (f s).1 = false → b.value ≠ JSValue.undef →
        (Binding.listenerStep f b s).2.1
            = b.listeners.map
                (fun l => { listener := l, oldValue := b.value, newValue := (f s).1 })
          ∧ (Binding.listenerStep f b s).2.2.2 = none)
    ∧ (jsEq b.value (f s).1 = true →
        (Binding.listenerStep f b s).2.1 = []
          ∧ (Binding.listenerStep f b s).1.value = b.value
          ∧ (Binding.listenerStep f b s).2.2.2 = none) := by
  unfold Binding.listenerStep
  refine ⟨?_, ?_, ?_, ?_⟩
  · split <;> split_ifs <;> simp_all
  · split <;> split_ifs <;> simp_all
  · intro hne hundef
    constructor
    · split <;> split_ifs <;> simp_all [ReadOnlyProperty.notify]
    · split <;> split_ifs <;> simp_all
  · intro heq
    refine ⟨?_, ?_, ?_⟩
    · split <;> split_ifs <;> simp_all
    · split <;> split_ifs <;> simp_all [jsEq_eq_true_iff]
    · split <;> split_ifs <;> simp_all

/-- Witness for `binding_listener_recompute_and_suppress` at a concrete
binding and compute function. -/
theorem binding_listener_recompute_and_suppress_witness :
    (Binding.listenerStep (fun n : Nat => (JSValue.num 9, n + 1))
        { value := JSValue.num 4, listeners := [2] } 0).1.value = JSValue.num 9
    ∧ (Binding.listenerStep (fun n : Nat => (JSValue.num 9, n + 1))
        { value := JSValue.num 4, listeners := [2] } 0).2.1
        = [{ listener := 2, oldValue := JSValue.num 4, newValue := JSValue.num 9 }] := by
  have h := binding_listener_recompute_and_suppress
    (fun n : Nat => (JSValue.num 9, n + 1))
    { value := JSValue.num 4, listeners := [2] } 0
  exact ⟨h.1, (h.2.2.1 (by decide) (by decide)).1⟩

/-- C5: Binding construction requires the compute argument to be a function
(else InvalidArgument), collapses duplicate sources into a set (no duplicates,
same membership), fails with InvalidArgument when that set is empty, and
otherwise eagerly invokes the compute function exactly once (the threaded
compute state advances by exactly one invocation) so that the binding's
initial `get()` is the value that invocation returned. -/
theorem binding_construction {σ : Type} (f : σ → JSValue × σ) (v : JSValue)
    (obs : List Nat) (s : σ) :
    Binding.mkNew (ComputeArg.notFn v) obs s = Except.error Err.invalidArgument
    ∧ Binding.mkNew (ComputeArg.fn f) ([] : List Nat) s
        = Except.error Err.invalidArgument
    ∧ (obs ≠ [] →
        Binding.mkNew (ComputeArg.fn f) obs s
            = Except.ok ({ value := (f s).1, listeners := [] }, (f s).2, dedupFirst obs)
          ∧ Binding.get { value := (f s).1, listeners := [] } = (f s).1)
    ∧ (dedupFirst obs).Nodup
    ∧ (∀ x, x ∈ dedupFirst obs ↔ x ∈ obs) := by
  refine ⟨rfl, by simp [Binding.mkNew, dedupFirst], ?_, nodup_dedupFirst obs,
    fun x => mem_dedupFirst x obs⟩
  intro hobs
  have hne : dedupFirst obs ≠ [] := fun h => hobs ((dedupFirst_eq_nil_iff obs).mp h)
  constructor
  · simp only [Binding.mkNew, List.length_eq_zero]
    rw [if_neg hne]
  · rfl

/-- C7: for a numeric divisor `d`, `NumberProperty.divide(d)` fails with
InvalidArgument exactly when `d` is zero; for a nonzero numeric divisor on a
numeric, unbound property it succeeds and stores the quotient of the current
value and the divisor (IEEE doubles modelled as exact rationals). -/
theorem divide_fails_iff_zero (w : ReadOnlyPropertyWrapper) (d : JSValue)
    (q b : ℚ) (hd : isNumber d = true) :
    ((NumberProperty.divide w d).err = some Err.invalidArgument
        ↔ jsEq d (JSValue.num 0) = true)
    ∧ (w.observing = false → w.value = JSValue.num q → d = JSValue.num b →
        b ≠ 0 →
        (NumberProperty.divide w d).err = none
          ∧ (NumberProperty.divide w d).st.value = JSValue.num (q / b)) := by
  constructor
  · constructor
    · intro herr
      by_contra hz
      have hz' : jsEq d (JSValue.num 0) = false := by
        cases h : jsEq d (JSValue.num 0) with
        | false => rfl
        | true => exact absurd h hz
      have : (NumberProperty.divide w d).err
          = (w.set (jsDiv w.value d)).err := by
        simp [NumberProperty.divide, NumberProperty.set, hd, hz',
          isNumber_jsDiv]
      rw [this] at herr
      exact wrapper_set_err_ne_invalidArgument w (jsDiv w.value d)
        (isNumber_ne_undef (isNumber_jsDiv w.value d)) herr
    · intro hz
      simp [NumberProperty.divide, hd, hz]
  · intro hob hval hdb hb
    subst hdb
    have hz' : jsEq (JSValue.num b) (JSValue.num 0) = false := by
      simp [jsEq, hb]
    have hdiv : jsDiv (JSValue.num q) (JSValue.num b) = JSValue.num (q / b) := by
      simp [jsDiv, hb]
    by_cases hsame : q / b = q
    · -- equal-value no-op path of the internal setter
      simp only [NumberProperty.divide, NumberProperty.set, hd, hz', hdiv, hval,
        ReadOnlyPropertyWrapper.set, Property.set, Property.setInternal,
        hob, jsEq, hsame, if_true, if_false, Bool.false_eq_true, ite_false]
      split_ifs <;> simp_all [isNumber, hval]
    · have hne : jsEq (JSValue.num q) (JSValue.num (q / b)) = false := by
        simp [jsEq]
        exact fun h => hsame h.symm
      simp only [NumberProperty.divide, NumberProperty.set, hd, hz', hdiv, hval,
        ReadOnlyPropertyWrapper.set, Property.set, Property.setInternal,
        hob, hne, if_true, if_false, Bool.false_eq_true, ite_false]
      split_ifs <;> simp_all [isNumber, hval]

/-- Witness for `divide_fails_iff_zero`: dividing a property holding `10` by
`4` succeeds and stores `5/2`; dividing by `0` fails with InvalidArgument. -/
theorem divide_fails_iff_zero_witness :
    (NumberProperty.divide (ReadOnlyPropertyWrapper.mkNew (JSValue.num 10))
        (JSValue.num 4)).st.value = JSValue.num (5 / 2)
    ∧ (NumberProperty.divide (ReadOnlyPropertyWrapper.mkNew (JSValue.num 10))
        (JSValue.num 0)).err = some Err.invalidArgument := by
  have h := divide_fails_iff_zero (ReadOnlyPropertyWrapper.mkNew (JSValue.num 10))
    (JSValue.num 4) 10 4 (by decide)
  have h0 := divide_fails_iff_zero (ReadOnlyPropertyWrapper.mkNew (JSValue.num 10))
    (JSValue.num 0) 10 0 (by decide)
  refine ⟨?_, h0.1.mpr (by decide)⟩
  have := (h.2 (by decide) (by decide) rfl (by norm_num)).2
  rw [this]
  norm_num

/-- C3: binding a property to a source synchronizes it to the source's value
and marks it bound; while bound and synchronized, every successful
`source.set(x)` makes the bound property's `get()` equal to `x` (and keeps it
equal to the source's value); and any direct `set` call on the bound property
fails with IllegalState, changing nothing and notifying nobody. -/
theorem bound_property_mirrors_source (w w0 : World) (x v : JSValue)
    (h0 : w0.dep.observing = false) (h0s : w0.src.value ≠ JSValue.undef)
    (h0d : w0.dep.value ≠ JSValue.undef) :
    ((World.bind w0).err = none
      ∧ (World.bind w0).w.dep.observing = true
      ∧ (World.bind w0).w.dep.value = (World.bind w0).w.src.value)
    ∧ (w.dep.observing = true → w.src.observing = false →
        w.dep.value = w.src.value → w.src.value ≠ JSValue.undef →
        x ≠ JSValue.undef →
        (World.srcSet w x).err = none
          ∧ (World.srcSet w x).w.dep.value = x
          ∧ (World.srcSet w x).w.dep.value = (World.srcSet w x).w.src.value
          ∧ (World.srcSet w x).w.dep.observing = true)
    ∧ (w.dep.observing = true →
        w.dep.set v = MRes.abort w.dep Err.illegalState
          ∧ Property.set w.dep.toProperty v
              = MRes.abort w.dep.toProperty Err.illegalState) := by
  refine ⟨?_, ?_, ?_⟩
  · simp only [World.bind, h0, Bool.false_eq_true, if_false,
      ReadOnlyPropertyWrapper.setInternal, Property.setInternal]
    split_ifs <;> simp_all [jsEq_eq_true_iff]
  · intro hb hs hsync hsv hx
    simp only [World.srcSet, Property.set, Property.setInternal,
      ReadOnlyPropertyWrapper.setInternal, hs, Bool.false_eq_true, if_false]
    split_ifs <;> simp_all [jsEq_eq_true_iff]
  · intro hb
    constructor
    · simp [ReadOnlyPropertyWrapper.set, Property.set, hb, MRes.abort]
    · simp [Property.set, hb, MRes.abort]

/-- Witness for `bound_property_mirrors_source`: a property bound to a source
holding `1` mirrors `source.set(15)` and rejects a direct `set(3)`. -/
theorem bound_property_mirrors_source_witness :
    (World.srcSet
        { src := { value := JSValue.num 1, listeners := [], observing := false },
          dep := { toProperty := { value := JSValue.num 1, listeners := [], observing := true },
                   viewCreated := false, viewListeners := [] } }
        (JSValue.num 15)).w.dep.value = JSValue.num 15
    ∧ (ReadOnlyPropertyWrapper.set
        { toProperty := { value := JSValue.num 1, listeners := [], observing := true },
          viewCreated := false, viewListeners := [] } (JSValue.num 3)).err
        = some Err.illegalState := by
  have h := bound_property_mirrors_source
    { src := { value := JSValue.num 1, listeners := [], observing := false },
      dep := { toProperty := { value := JSValue.num 1, listeners := [], observing := true },
               viewCreated := false, viewListeners := [] } }
    { src := { value := JSValue.num 1, listeners := [], observing := false },
      dep := { toProperty := { value := JSValue.num 1, listeners := [], observing := false },
               viewCreated := false, viewListeners := [] } }
    (JSValue.num 15) (JSValue.num 3) (by decide) (by decide) (by decide)
  refine ⟨(h.2.1 (by decide) (by decide) (by decide) (by decide) (by decide)).2.1, ?_⟩
  rw [(h.2.2 (by decide)).1]
  rfl

/-- C6: `unbind()` is idempotent — calling it while unbound is a no-op and a
second call changes nothing; after `unbind()` the property is unbound, a
direct `set(v)` succeeds and stores `v`, and subsequent changes of the former
source no longer alter the property. -/
theorem unbind_idempotent_restores_mutability (w : World) (v x : JSValue) :
    (w.dep.observing = false → World.unbind w = w)
    ∧ World.unbind (World.unbind w) = World.unbind w
    ∧ (World.unbind w).dep.observing = false
    ∧ (v ≠ JSValue.undef → w.dep.value ≠ JSValue.undef →
        ((World.unbind w).dep.set v).err = none
          ∧ ((World.unbind w).dep.set v).st.value = v)
    ∧ (World.srcSet (World.unbind w) x).w.dep = (World.unbind w).dep := by
  have hun : (World.unbind w).dep.observing = false := by
    by_cases h : w.dep.observing <;> simp [World.unbind, h]
  refine ⟨?_, ?_, hun, ?_, ?_⟩
  · intro h
    simp [World.unbind, h]
  · by_cases h : w.dep.observing <;> simp [World.unbind, h]
  · intro hv hwv
    have hval : (World.unbind w).dep.value = w.dep.value := by
      by_cases h : w.dep.observing <;> simp [World.unbind, h]
    constructor
    · simp only [ReadOnlyPropertyWrapper.set, Property.set, Property.setInternal,
        hun, Bool.false_eq_true, if_false]
      split_ifs <;> simp_all [jsEq_eq_true_iff]
    · simp only [ReadOnlyPropertyWrapper.set, Property.set, Property.setInternal,
        hun, Bool.false_eq_true, if_false]
      split_ifs <;> simp_all [jsEq_eq_true_iff]
  · simp only [World.srcSet, hun, Bool.and_false, Bool.false_eq_true, if_false]

/-- Witness for `unbind_idempotent_restores_mutability`: after unbinding a
bound property holding `1`, `set(3)` stores `3` and a later source mutation
leaves the property untouched. -/
theorem unbind_idempotent_restores_mutability_witness :
    ((World.unbind
        { src := { value := JSValue.num 1, listeners := [], observing := false },
          dep := { toProperty := { value := JSValue.num 1, listeners := [], observing := true },
                   viewCreated := false, viewListeners := [] } }).dep.set
        (JSValue.num 3)).st.value = JSValue.num 3 := by
  have h := unbind_idempotent_restores_mutability
    { src := { value := JSValue.num 1, listeners := [], observing := false },
      dep := { toProperty := { value := JSValue.num 1, listeners := [], observing := true },
               viewCreated := false, viewListeners := [] } }
    (JSValue.num 3) (JSValue.num 9)
  exact (h.2.2.2.1 (by decide) (by decide)).2

/-- C8: when a bound NumberProperty's source changes to a non-numeric value
`x`, the bind-forwarding path stores `x` through the `Property`-level internal
setter without any numeric validation, so the NumberProperty afterwards holds
a non-number — even though the public `set` would have rejected the same `x`
with InvalidArgument. -/
theorem bind_forwarding_skips_number_check (w : World) (x : JSValue)
    (hb : w.dep.observing = true) (hs : w.src.observing = false)
    (hx : isNumber x = false) (hxu : x ≠ JSValue.undef)
    (hch : jsEq w.src.value x = false)
    (hsv : w.src.value ≠ JSValue.undef) (hdv : w.dep.value ≠ JSValue.undef) :
    (World.srcSet w x).err = none
    ∧ (World.srcSet w x).w.dep.value = x
    ∧ isNumber (World.srcSet w x).w.dep.value = false
    ∧ NumberProperty.set w.dep x = MRes.abort w.dep Err.invalidArgument := by
  have hmain : (World.srcSet w x).err = none ∧ (World.srcSet w x).w.dep.value = x := by
    simp only [World.srcSet, Property.set, Property.setInternal,
      ReadOnlyPropertyWrapper.setInternal, hs, Bool.false_eq_true, if_false]
    split_ifs <;> simp_all [jsEq_eq_true_iff]
  refine ⟨hmain.1, hmain.2, ?_, ?_⟩
  · rw [hmain.2]; exact hx
  · simp [NumberProperty.set, hx, MRes.abort]

/-- Witness for `bind_forwarding_skips_number_check`: a bound NumberProperty
holding `1` ends up holding the string `"oops"` after the source is set to
it. -/
theorem bind_forwarding_skips_number_check_witness :
    (World.srcSet
        { src := { value := JSValue.num 1, listeners := [], observing := false },
          dep := { toProperty := { value := JSValue.num 1, listeners := [], observing := true },
                   viewCreated := false, viewListeners := [] } }
        (JSValue.str "oops")).w.dep.value = JSValue.str "oops" := by
  have h := bind_forwarding_skips_number_check
    { src := { value := JSValue.num 1, listeners := [], observing := false },
      dep := { toProperty := { value := JSValue.num 1, listeners := [], observing := true },
               viewCreated := false, viewListeners := [] } }
    (JSValue.str "oops") (by decide) (by decide) (by decide) (by decide)
    (by decide) (by decide) (by decide)
  exact h.2.1

/-- C9: failed precondition checks are atomic.  Whenever a public mutator
fails — `set` while bound (directly or through an arithmetic call),
`set`/`add`/`subtract`/`multiply`/`divide` with a non-numeric argument, or
`divide` by zero — the assertion fires before any state change: the stored
value (indeed the entire property state) is unchanged and no listener, of the
owner or of its view, is invoked. -/
theorem failed_preconditions_atomic (w : ReadOnlyPropertyWrapper)
    (v a d : JSValue) :
    (w.observing = true →
        w.set v = MRes.abort w Err.illegalState
        ∧ (isNumber v = true →
            NumberProperty.set w v = MRes.abort w Err.illegalState)
        ∧ (isNumber a = true →
            NumberProperty.add w a = MRes.abort w Err.illegalState))
    ∧ (isNumber v = false →
        NumberProperty.set w v = MRes.abort w Err.invalidArgument)
    ∧ (isNumber a = false →
        NumberProperty.add w a = MRes.abort w Err.invalidArgument
        ∧ NumberProperty.subtract w a = MRes.abort w Err.invalidArgument
        ∧ NumberProperty.multiply w a = MRes.abort w Err.invalidArgument
        ∧ NumberProperty.divide w a = MRes.abort w Err.invalidArgument)
    ∧ (isNumber d = true → jsEq d (JSValue.num 0) = true →
        NumberProperty.divide w d = MRes.abort w Err.invalidArgument) := by
  refine ⟨?_, ?_, ?_, ?_⟩
  · intro hb
    refine ⟨?_, ?_, ?_⟩
    · simp [ReadOnlyPropertyWrapper.set, Property.set, hb, MRes.abort]
    · intro hv
      simp [NumberProperty.set, hv, ReadOnlyPropertyWrapper.set,
        Property.set, hb, MRes.abort]
    · intro ha
      simp [NumberProperty.add, ha, NumberProperty.set, isNumber_jsAdd,
        ReadOnlyPropertyWrapper.set, Property.set, hb, MRes.abort]
  · intro hv
    simp [NumberProperty.set, hv, MRes.abort]
  · intro ha
    refine ⟨?_, ?_, ?_, ?_⟩ <;>
      simp [NumberProperty.add, NumberProperty.subtract,
        NumberProperty.multiply, NumberProperty.divide, ha, MRes.abort]
  · intro hd hz
    simp [NumberProperty.divide, hd, hz, MRes.abort]

/-- Witness for `failed_preconditions_atomic`: a bound property holding `1`
rejects `set(2)` unchanged, and an unbound property rejects a string summand
and a zero divisor unchanged. -/
theorem failed_preconditions_atomic_witness :
    (NumberProperty.set
        { toProperty := { value := JSValue.num 1, listeners := [0], observing := true },
          viewCreated := false, viewListeners := [] } (JSValue.num 2)).err
        = some Err.illegalState
    ∧ (NumberProperty.add (ReadOnlyPropertyWrapper.mkNew (JSValue.num 1))
        (JSValue.str "x")).st = ReadOnlyPropertyWrapper.mkNew (JSValue.num 1)
    ∧ (NumberProperty.divide (ReadOnlyPropertyWrapper.mkNew (JSValue.num 1))
        (JSValue.num 0)).own = [] := by
  have h1 := (failed_preconditions_atomic
    { toProperty := { value := JSValue.num 1, listeners := [0], observing := true },
      viewCreated := false, viewListeners := [] }
    (JSValue.num 2) (JSValue.num 2) (JSValue.num 0)).1 rfl
  have h2 := ((failed_preconditions_atomic
    (ReadOnlyPropertyWrapper.mkNew (JSValue.num 1))
    (JSValue.num 1) (JSValue.str "x") (JSValue.num 0)).2.2.1 (by decide)).1
  have h3 := (failed_preconditions_atomic
    (ReadOnlyPropertyWrapper.mkNew (JSValue.num 1))
    (JSValue.num 1) (JSValue.str "x") (JSValue.num 0)).2.2.2 (by decide) (by decide)
  refine ⟨?_, ?_, ?_⟩
  · rw [(h1.2.1 (by decide) : _)]; rfl
  · rw [h2]; rfl
  · rw [h3]; rfl

/-- C1 counterexample: the claim "every mutation of the owner's value —
whether by a direct public set/arithmetic call or by bind-forwarding from a
bound source — causes the cached read-only view's listeners to be notified"
is false.  A wrapper with a created view (listener `7` on the view) is bound
to a source holding `1`; the source is then set to `2`.  Bind-forwarding
mutates the owner's value from `1` to `2` through the `Property`-level
internal setter, and the view's listener receives no notification. -/
theorem view_not_notified_on_forward_counterexample :
    let dep0 := (ReadOnlyPropertyWrapper.mkNew (JSValue.num 0)).readOnly.addViewListener 7
    let w0 : World := { src := Property.mkNew (JSValue.num 1), dep := dep0 }
    let wb := World.bind w0
    let r := World.srcSet wb.w (JSValue.num 2)
    wb.err = none
    ∧ wb.w.dep.observing = true
    ∧ wb.w.dep.viewCreated = true
    ∧ wb.w.dep.viewListeners = [7]
    ∧ wb.w.dep.value = JSValue.num 1
    ∧ r.err = none
    ∧ r.w.dep.value = JSValue.num 2
    ∧ r.viewN = [] := by
  decide

/-- C1 (amended): the cached read-only view's `get()` always returns the
owner's current value, and — once the view has been created — every mutation
of the owner through the public `set`/arithmetic chain notifies the view's
listeners with the pre-change and current values; but mutations forwarded
from a bound source run the `Property`-level internal setter, bypass the
wrapper override, and never notify the view's listeners. -/
theorem view_reflects_owner (w : World) (ww : ReadOnlyPropertyWrapper)
    (v x : JSValue) (q r : ℚ) :
    ww.viewGet = ww.value
    ∧ (ww.viewCreated = true → ww.observing = false →
        ww.value ≠ JSValue.undef → v ≠ JSValue.undef →
        (ww.set v).err = none
          ∧ (ww.set v).view
              = ReadOnlyProperty.notify ww.viewListeners ww.value (ww.set v).st.value)
    ∧ (ww.viewCreated = true → ww.observing = false → ww.value = JSValue.num q →
        (NumberProperty.add ww (JSValue.num r)).view
            = ReadOnlyProperty.notify ww.viewListeners (JSValue.num q)
                (JSValue.num (q + r)))
    ∧ (World.srcSet w x).viewN = [] := by
  refine ⟨rfl, ?_, ?_, ?_⟩
  · intro hvc hob hwu hvu
    constructor
    · simp only [ReadOnlyPropertyWrapper.set, Property.set, Property.setInternal]
      split_ifs <;> simp_all
    · simp only [ReadOnlyPropertyWrapper.set, Property.set, Property.setInternal]
      split_ifs <;> simp_all
  · intro hvc hob hq
    have hadd : jsAdd ww.value (JSValue.num r) = JSValue.num (q + r) := by
      rw [hq]; rfl
    by_cases hsame : q + r = q
    · have heq : jsEq ww.value (JSValue.num (q + r)) = true := by
        rw [hq, jsEq_eq_true_iff]
        simp [hsame]
      simp only [NumberProperty.add, NumberProperty.set, hadd, isNumber,
        ReadOnlyPropertyWrapper.set, Property.set, Property.setInternal,
        hob, heq, hvc, if_true, if_false, Bool.false_eq_true, ite_false,
        ite_true]
      split_ifs <;> simp_all
    · have hne : jsEq ww.value (JSValue.num (q + r)) = false := by
        rw [hq]
        simp only [jsEq, decide_eq_false_iff_not, ne_eq, JSValue.num.injEq]
        intro h
        exact hsame (by linarith)
      simp only [NumberProperty.add, NumberProperty.set, hadd, isNumber,
        ReadOnlyPropertyWrapper.set, Property.set, Property.setInternal,
        hob, hne, hvc, if_true, if_false, Bool.false_eq_true, ite_false,
        ite_true]
      split_ifs <;> simp_all [hq]
  · simp only [World.srcSet, ReadOnlyPropertyWrapper.setInternal]
    split_ifs <;> rfl

/-- Witness for `view_reflects_owner`: a direct `set(2)` on a wrapper holding
`1` with a created view (listener `7`) notifies the view listener with
old value `1` and new value `2`. -/
theorem view_reflects_owner_witness :
    (((ReadOnlyPropertyWrapper.mkNew
        (JSValue.num 1)).readOnly.addViewListener 7).set (JSValue.num 2)).view
      = [{ listener := 7, oldValue := JSValue.num 1, newValue := JSValue.num 2 }] := by
  have h := (view_reflects_owner
    { src := Property.mkNew JSValue.null, dep := ReadOnlyPropertyWrapper.mkNew JSValue.null }
    ((ReadOnlyPropertyWrapper.mkNew (JSValue.num 1)).readOnly.addViewListener 7)
    (JSValue.num 2) JSValue.null 0 0).2.1 (by decide) (by decide) (by decide) (by decide)
  rw [h.2]
  decide

/-- C2 counterexample: the claim "if `v` equals `P`'s current value then
`P.set(v)` is a no-op and no listener registered on `P` — nor on any
read-only view of `P` — is invoked" is false.  A wrapper property holding `5`
whose read-only view has been created (with listener `3` on the view)
receives `set(5)`: the stored value is unchanged and the owner's listeners
stay silent, but the wrapper override notifies the view's listener with
`oldValue = newValue = 5`. -/
theorem equal_set_notifies_view_counterexample :
    (jsEq (((ReadOnlyPropertyWrapper.mkNew
        (JSValue.num 5)).readOnly.addViewListener 3).value) (JSValue.num 5) = true)
    ∧ ((((ReadOnlyPropertyWrapper.mkNew
        (JSValue.num 5)).readOnly.addViewListener 3).set (JSValue.num 5)).own = [])
    ∧ ((((ReadOnlyPropertyWrapper.mkNew
        (JSValue.num 5)).readOnly.addViewListener 3).set (JSValue.num 5)).view
        = [{ listener := 3, oldValue := JSValue.num 5, newValue := JSValue.num 5 }]) := by
  decide

/-- C2 (amended): if `v` is strictly equal to the property's current value,
`set(v)` leaves the value unchanged and invokes no listener registered on the
property itself; however, on a wrapper whose read-only view has been created,
the view's listeners are still invoked — with `oldValue = newValue` — even
for such an equal-value set. -/
theorem equal_set_is_noop_except_view (p : Property)
    (w : ReadOnlyPropertyWrapper) (v u : JSValue)
    (hpv : jsEq p.value v = true) (hpo : p.observing = false)
    (hpu : p.value ≠ JSValue.undef)
    (hwv : jsEq w.value u = true) (hwo : w.observing = false)
    (hwu : w.value ≠ JSValue.undef) :
    Property.set p v = { st := p, own := [], view := [], fired := false, err := none }
    ∧ (w.set u).st = w
    ∧ (w.set u).own = []
    ∧ (w.set u).err = none
    ∧ (w.set u).view = (if w.viewCreated then
        ReadOnlyProperty.notify w.viewListeners w.value w.value else []) := by
  have hpv' := hpv
  rw [jsEq_eq_true_iff] at hpv'
  have hv : v ≠ JSValue.undef := by
    intro h
    exact hpu (hpv'.1.trans h)
  have hu : u ≠ JSValue.undef := by
    rw [jsEq_eq_true_iff] at hwv
    intro h
    exact hwu (hwv.1.trans h)
  have hwvu : jsEq w.value u = true := hwv
  rw [jsEq_eq_true_iff] at hwv
  refine ⟨?_, ?_, ?_, ?_, ?_⟩
  · simp [Property.set, Property.setInternal, hpo, hpv, hv]
  · simp only [ReadOnlyPropertyWrapper.set, Property.set, Property.setInternal, hwo,
      Bool.false_eq_true, if_false, hwvu, if_true, hu]
    split_ifs <;> rfl
  · simp only [ReadOnlyPropertyWrapper.set, Property.set, Property.setInternal, hwo,
      Bool.false_eq_true, if_false, hwvu, if_true, hu]
    split_ifs <;> rfl
  · simp only [ReadOnlyPropertyWrapper.set, Property.set, Property.setInternal, hwo,
      Bool.false_eq_true, if_false, hwvu, if_true, hu]
    split_ifs <;> simp_all
  · simp only [ReadOnlyPropertyWrapper.set, Property.set, Property.setInternal, hwo,
      Bool.false_eq_true, if_false, hwvu, if_true, hu]
    split_ifs <;> simp_all

/-- Witness for `equal_set_is_noop_except_view` at a plain property and a
viewless wrapper holding `5`. -/
theorem equal_set_is_noop_except_view_witness :
    Property.set (Property.mkNew (JSValue.num 5)) (JSValue.num 5)
        = { st := Property.mkNew (JSValue.num 5), own := [], view := [],
            fired := false, err := none }
    ∧ ((ReadOnlyPropertyWrapper.mkNew (JSValue.num 5)).set (JSValue.num 5)).view
        = [] := by
  have h := equal_set_is_noop_except_view (Property.mkNew (JSValue.num 5))
    (ReadOnlyPropertyWrapper.mkNew (JSValue.num 5)) (JSValue.num 5) (JSValue.num 5)
    (by decide) (by decide) (by decide) (by decide) (by decide) (by decide)
  refine ⟨h.1, ?_⟩
  rw [h.2.2.2.2]
  decide

/-- C10: `undefined` is reserved as the unset sentinel and can never be stored
in a `Property`: `set(undefined)` fails whether the property is bound (the
bound-state guard fires first) or unbound (the internal setter's
`newValue !== undefined` assertion fires), in both cases leaving the state
unchanged and notifying nobody; a property constructed with no argument (or
with `undefined`) holds `null`, never `undefined`; and on any property whose
value is defined, the internal setter preserves definedness, so `notify`'s
`oldValue !== undefined` precondition never fails. -/
theorem undef_never_stored (p : Property) (v : JSValue) :
    (Property.mkNew JSValue.undef).value = JSValue.null
    ∧ (Property.mkNew v).value ≠ JSValue.undef
    ∧ (Property.set p JSValue.undef).err
        = some (if p.observing then Err.illegalState else Err.invalidArgument)
    ∧ (Property.set p JSValue.undef).st = p
    ∧ (Property.set p JSValue.undef).own = []
    ∧ (p.value ≠ JSValue.undef →
        (p.setInternal v).st.value ≠ JSValue.undef
          ∧ (p.setInternal v).err ≠ some Err.assertionFailed) := by
  refine ⟨rfl, ?_, ?_, ?_, ?_, ?_⟩
  · simp only [Property.mkNew]
    split_ifs <;> simp_all
  · by_cases hb : p.observing <;>
      simp [Property.set, Property.setInternal, hb]
  · by_cases hb : p.observing <;>
      simp [Property.set, Property.setInternal, hb]
  · by_cases hb : p.observing <;>
      simp [Property.set, Property.setInternal, hb]
  · intro hp
    unfold Property.setInternal
    split_ifs <;> simp_all [jsEq_eq_true_iff]

/-- Witness for `undef_never_stored` at a concrete unbound property. -/
theorem undef_never_stored_witness :
    (Property.set (Property.mkNew (JSValue.num 5)) JSValue.undef).err
        = some Err.invalidArgument
    ∧ ((Property.mkNew (JSValue.num 5)).setInternal (JSValue.num 6)).st.value
        ≠ JSValue.undef := by
  have h := undef_never_stored (Property.mkNew (JSValue.num 5)) (JSValue.num 6)
  refine ⟨?_, (h.2.2.2.2.2 (by decide)).1⟩
  have h3 := (undef_never_stored (Property.mkNew (JSValue.num 5))
    (JSValue.num 6)).2.2.1
  simpa [Property.mkNew] using h3

/-- Witness for `binding_construction`: a duplicated two-element source list
collapses to one source, and the counter-instrumented compute function is
invoked exactly once (its counter ends at 1). -/
theorem binding_construction_witness :
    ([3, 3] : List Nat) ≠ []
    ∧ Binding.mkNew (ComputeArg.fn (fun n : Nat => (JSValue.num 7, n + 1))) [3, 3] 0
        = Except.ok ({ value := JSValue.num 7, listeners := [] }, 1, [3]) := by
  have h := (binding_construction (fun n : Nat => (JSValue.num 7, n + 1))
    JSValue.null [3, 3] 0).2.2.1 (by decide)
  have h1 := h.1
  have hd : dedupFirst [3, 3] = [3] := by simp [dedupFirst]
  rw [hd] at h1
  exact ⟨by decide, h1⟩
